import Mathlib

/-!
Verification of the CARLA traffic-manager orchestrator contract.

Shallow embedding of `TrafficManagerLocal`
(`LibCarla/source/carla/trafficmanager/TrafficManagerLocal.h`).  The header
declares the orchestrator's public control surface (lifecycle, registry
mutation, parameter writes, collision exceptions, traffic-light reset,
synchronous tick); the stage implementations it references
(`Parameters`, `AtomicActorSet`, `CollisionStage`, `MotionPlannerStage`,
`TrafficLightStage`, `BatchControlStage`) are not part of the available
sources, so their behaviour is modelled from the specification's words,
marked `Modelled from the spec:` below.
-/

namespace CarlaTM

/-- Vehicle actor identity (`ActorId` in the header). -/
abbrev ActorId := Nat

/-! ## Parameter store -/

/-- Modelled from the spec: one field of the `Parameters` store
(`Parameters.h` is missing from the sources).  Spec §4.2: per-field state is
a built-in default, an optional global override, and per-actor overrides;
`Get(handle, field)` returns the per-actor value if present, else the global
default, else the built-in default. -/
structure FieldStore where
  builtin : Rat
  globalVal : Option Rat
  perActor : List (ActorId × Rat)
deriving DecidableEq, Repr

/-- Modelled from the spec: `Get(handle, field)` (spec §4.2). -/
def FieldStore.Get (fs : FieldStore) (a : ActorId) : Rat :=
  match fs.perActor.lookup a with
  | some v => v
  | none => fs.globalVal.getD fs.builtin

/-- Modelled from the spec: `SetGlobal(field, value)` (spec §4.2). -/
def FieldStore.SetGlobal (fs : FieldStore) (v : Rat) : FieldStore :=
  { fs with globalVal := some v }

/-- Modelled from the spec: `SetForActor(handle, field, value)` (spec §4.2). -/
def FieldStore.SetForActor (fs : FieldStore) (a : ActorId) (v : Rat) : FieldStore :=
  { fs with perActor := (a, v) :: fs.perActor.filter (fun p => p.1 != a) }

/-- Modelled from the spec: removing an actor drops its parameter overrides
(spec §4.1, `Remove(handle)` "removes record and all ParameterRecord
overrides"). -/
def FieldStore.RemoveActor (fs : FieldStore) (a : ActorId) : FieldStore :=
  { fs with perActor := fs.perActor.filter (fun p => p.1 != a) }

/-! ## Actor registry -/

/-- Modelled from the spec: `AtomicActorSet` membership insert
(spec §4.1 `Add(handle)` — "idempotent, inserts if absent").
The registry is a duplicate-free id list. -/
def insertActor (reg : List ActorId) (a : ActorId) : List ActorId :=
  if a ∈ reg then reg else reg ++ [a]

/-- Modelled from the spec: `RegisterVehicles(actor_list)`
(header line 117; spec §6 "idempotent registry mutation") — each actor in the
list is inserted if absent. -/
def RegisterVehiclesReg (reg : List ActorId) (actors : List ActorId) : List ActorId :=
  actors.foldl insertActor reg

/-- Modelled from the spec: `UnregisterVehicles(actor_list)`
(header line 120; spec §4.1 `Remove(handle)` — "idempotent, removes record").
Every listed actor is removed from the registry. -/
def UnregisterVehiclesReg (reg : List ActorId) (actors : List ActorId) : List ActorId :=
  reg.filter (fun x => !(actors.contains x))

theorem mem_insertActor {reg : List ActorId} {a : ActorId} (x : ActorId)
    (hx : x ∈ reg) : x ∈ insertActor reg a := by
  unfold insertActor
  split
  · exact hx
  · exact List.mem_append_left _ hx

theorem registerReg_eq_of_mem : ∀ (actors : List ActorId) (reg : List ActorId),
    (∀ x ∈ actors, x ∈ reg) → RegisterVehiclesReg reg actors = reg := by
  intro actors
  induction actors with
  | nil => intro reg _; rfl
  | cons a as ih =>
    intro reg h
    have ha : a ∈ reg := h a (List.mem_cons_self a as)
    have : insertActor reg a = reg := by simp [insertActor, ha]
    simp only [RegisterVehiclesReg, List.foldl_cons, this]
    exact ih reg (fun x hx => h x (List.mem_cons_of_mem a hx))

theorem mem_foldl_insertActor : ∀ (as : List ActorId) (reg : List ActorId) (x : ActorId),
    x ∈ reg → x ∈ RegisterVehiclesReg reg as := by
  intro as
  induction as with
  | nil => intro reg x hx; exact hx
  | cons a as ih =>
    intro reg x hx
    exact ih (insertActor reg a) x (mem_insertActor x hx)

theorem mem_registerReg : ∀ (actors : List ActorId) (reg : List ActorId),
    ∀ x ∈ actors, x ∈ RegisterVehiclesReg reg actors := by
  intro actors
  induction actors with
  | nil => intro reg x hx; cases hx
  | cons a as ih =>
    intro reg x hx
    rcases List.mem_cons.mp hx with rfl | hxs
    · have hmem : x ∈ insertActor reg x := by
        unfold insertActor
        split
        · assumption
        · exact List.mem_append_right _ (List.mem_singleton.mpr rfl)
      exact mem_foldl_insertActor as (insertActor reg x) x hmem
    · exact ih (insertActor reg a) x hxs

/-! ## Collision exceptions and hazard verdicts -/

/-- Modelled from the spec: collision-stage hazard verdict (spec §3
`HazardVerdict` — per actor, no-hazard or must-yield with the blocking
actor's identity). -/
inductive HazardVerdict where
  | noHazard : HazardVerdict
  | mustYield (blocker : ActorId) : HazardVerdict
deriving DecidableEq, Repr

/-- Modelled from the spec: the `Parameters` behaviour store referenced by
the header (line 89), whose class sources are missing.  Spec §3
`ParameterRecord`: speed-difference offset, collision-detection exception
pairs, lane-change flags, following distance, ignore/run-light
probabilities. -/
structure Parameters where
  speed_diff : FieldStore
  distance_to_leading : FieldStore
  ignore_actors_pct : FieldStore
  run_light_pct : FieldStore
  exceptions : List (ActorId × ActorId)
  force_lane_change : List (ActorId × Bool)
  auto_lane_change : List (ActorId × Bool)
deriving DecidableEq, Repr

/-- Erase both orientations of an actor pair from an exception list. -/
def erasePairBoth (l : List (ActorId × ActorId)) (ref other : ActorId) :
    List (ActorId × ActorId) :=
  l.filter (fun q => !((q.1 == ref && q.2 == other) || (q.1 == other && q.2 == ref)))

/-- Modelled from the spec: `SetCollisionDetection(reference_actor,
other_actor, detect_collision)` (header lines 132–135; spec §6 "symmetric
exception-set mutation") — disabling detection records both ordered pairs,
enabling it erases both. -/
def Parameters.SetCollisionDetection (p : Parameters) (ref other : ActorId)
    (detect : Bool) : Parameters :=
  if detect then
    { p with exceptions := erasePairBoth p.exceptions ref other }
  else
    { p with exceptions := (ref, other) :: (other, ref) :: p.exceptions }

/-- Modelled from the spec: a pair is exempt from collision detection when
either actor's exception set lists the other (spec §4.5). -/
def Parameters.collisionExempt (p : Parameters) (a b : ActorId) : Bool :=
  p.exceptions.contains (a, b) || p.exceptions.contains (b, a)

/-- Modelled from the spec: the collision stage's per-pair verdict
(spec §4.5) — a must-yield verdict arises only for a geometrically
overlapping, non-exempt pair whose ignore-probability draw did not suppress
detection, and lands on the lower-priority actor. -/
def hazardVerdict (p : Parameters) (self other : ActorId)
    (overlaps ignoreDraw selfLowerPriority : Bool) : HazardVerdict :=
  if overlaps && !(p.collisionExempt self other) && !ignoreDraw && selfLowerPriority
  then HazardVerdict.mustYield other
  else HazardVerdict.noHazard

/-! ## Motion planner desired speed -/

/-- Modelled from the spec: the Motion Planner Stage's longitudinal desired
speed (spec §4.7 — "desired speed = speed limit × (1 −
speed-difference-percentage), or 0 if must-yield /
red-light-violation-not-permitted").  The percentage is given in percent
(50 means 50%). -/
def desiredSpeed (speed_limit pct_diff : Rat) (must_yield red_stop : Bool) : Rat :=
  if must_yield || red_stop then 0 else speed_limit * (1 - pct_diff / 100)

/-! ## Traffic-light freeze-check protocol -/

/-- Modelled from the spec: the polling loop of `CheckAllFrozen`
(header line 92; spec §4.6).  `poll i` is the frozen status of each light of
the group at the i-th poll; the remaining fuel is the number of retries still
allowed after the current poll.  Returns the success flag and the number of
retries consumed. -/
def checkAllFrozenGo (poll : Nat → List Bool) : Nat → Nat → Bool × Nat
  | i, 0 => ((poll i).all (fun b => b), 0)
  | i, n + 1 =>
    if (poll i).all (fun b => b) then (true, 0)
    else
      let r := checkAllFrozenGo poll (i + 1) n
      (r.1, r.2 + 1)

/-- Modelled from the spec: `CheckAllFrozen(tl_to_freeze)` (header line 92;
spec §4.6) — polls the group until every member reports frozen or the
bounded retry count is exhausted, in which case it reports a soft failure
rather than blocking forever.  With retry bound `r` there are `r + 1` polls. -/
def CheckAllFrozen (poll : Nat → List Bool) (retry_bound : Nat) : Bool × Nat :=
  checkAllFrozenGo poll 0 retry_bound

/-- Modelled from the spec: `ResetAllTrafficLights()` (header line 155;
spec §7(c)) — runs the freeze protocol and reports its boolean status to the
caller as a soft failure, not fatal to the orchestrator. -/
def ResetAllTrafficLights (poll : Nat → List Bool) (retry_bound : Nat) : Bool :=
  (CheckAllFrozen poll retry_bound).1

theorem checkAllFrozenGo_all_fail (poll : Nat → List Bool) :
    ∀ (n i : Nat), (∀ k, k ≤ n → (poll (i + k)).all (fun b => b) = false) →
    checkAllFrozenGo poll i n = (false, n) := by
  intro n
  induction n with
  | zero =>
    intro i h
    have h0 := h 0 (Nat.le_refl 0)
    simp only [Nat.add_zero] at h0
    simp [checkAllFrozenGo, h0]
  | succ n ih =>
    intro i h
    have h0 := h 0 (Nat.zero_le _)
    simp only [Nat.add_zero] at h0
    have hrest : ∀ k, k ≤ n → (poll (i + 1 + k)).all (fun b => b) = false := by
      intro k hk
      have := h (k + 1) (Nat.succ_le_succ hk)
      simpa [Nat.add_assoc, Nat.add_comm 1 k] using this
    simp [checkAllFrozenGo, h0, ih (i + 1) hrest]

theorem checkAllFrozenGo_first_poll (poll : Nat → List Bool) (i : Nat)
    (n : Nat) (h : (poll i).all (fun b => b) = true) :
    checkAllFrozenGo poll i n = (true, 0) := by
  cases n with
  | zero => simp [checkAllFrozenGo, h]
  | succ n => simp [checkAllFrozenGo, h]

/-! ## Orchestrator lifecycle and state -/

/-- Modelled from the spec: orchestrator lifecycle states (spec §4.9
"Stopped → Starting → Running → Stopping → Stopped"). -/
inductive TMState where
  | stoppedState : TMState
  | startingState : TMState
  | runningState : TMState
  | stoppingState : TMState
deriving DecidableEq, Repr

/-- Modelled from the spec: the legal lifecycle transitions of §4.9. -/
def allowedTransition : TMState → TMState → Bool
  | TMState.stoppedState, TMState.startingState => true
  | TMState.startingState, TMState.runningState => true
  | TMState.runningState, TMState.stoppingState => true
  | TMState.stoppingState, TMState.stoppedState => true
  | _, _ => false

/-- The four PID gain coefficient vectors held by `TrafficManagerLocal`
(header lines 56–59). -/
structure PIDConfig where
  longitudinal_PID_parameters : List Rat
  longitudinal_highway_PID_parameters : List Rat
  lateral_PID_parameters : List Rat
  lateral_highway_PID_parameters : List Rat
deriving DecidableEq, Repr

/-- Modelled from the spec: the orchestrator's state — registry, parameter
store, PID configuration (header lines 55–89), lifecycle state, synchronous
mode flag, epoch counter and count of batched actuation submissions
(spec §§4.8–4.9, §5). -/
structure TM where
  state : TMState
  sync_mode : Bool
  pid : PIDConfig
  registry : List ActorId
  params : Parameters
  epoch : Nat
  batch_submissions : Nat
  stages_alive : Bool
  messengers_alive : Bool
deriving DecidableEq, Repr

/-- Modelled from the spec: the constructor (header lines 105–111) stores
the four PID gain vectors passed by value, an empty registry and default
parameters; the orchestrator begins stopped with stages not yet launched. -/
def mkTrafficManagerLocal (lon lonHw lat latHw : List Rat)
    (perc_decrease_from_limit : Rat) : TM :=
  { state := TMState.stoppedState,
    sync_mode := false,
    pid :=
      { longitudinal_PID_parameters := lon,
        longitudinal_highway_PID_parameters := lonHw,
        lateral_PID_parameters := lat,
        lateral_highway_PID_parameters := latHw },
    registry := [],
    params :=
      { speed_diff := { builtin := perc_decrease_from_limit, globalVal := none, perActor := [] },
        distance_to_leading := { builtin := 0, globalVal := none, perActor := [] },
        ignore_actors_pct := { builtin := 0, globalVal := none, perActor := [] },
        run_light_pct := { builtin := 0, globalVal := none, perActor := [] },
        exceptions := [],
        force_lane_change := [],
        auto_lane_change := [] },
    epoch := 0,
    batch_submissions := 0,
    stages_alive := false,
    messengers_alive := false }

/-- Modelled from the spec: `Start()` (header line 97; spec §4.9) — rejected
as a no-op when already Running, otherwise launches stages and messengers
and reaches the Running state (through Starting). -/
def TM.start (s : TM) : TM :=
  if s.state = TMState.runningState then s
  else { s with
    state := TMState.runningState,
    stages_alive := true,
    messengers_alive := true }

/-- Modelled from the spec: the lifecycle states `Start()` passes through
from a non-Running state (spec §4.9). -/
def startVisited (s : TM) : List TMState :=
  if s.state = TMState.runningState then []
  else [TMState.startingState, TMState.runningState]

/-- Modelled from the spec: `Stop()` (header line 100; spec §4.9) — drains
the in-flight epoch, joins the stages, releases the messengers and reaches
Stopped (through Stopping). -/
def TM.stop (s : TM) : TM :=
  { s with
    state := TMState.stoppedState,
    stages_alive := false,
    messengers_alive := false }

/-- Modelled from the spec: the lifecycle states `Stop()` passes through
from the Running state (spec §4.9). -/
def stopVisited : List TMState :=
  [TMState.stoppingState, TMState.stoppedState]

/-! ## Synchronous tick and pipeline events -/

/-- Modelled from the spec: observable pipeline events of one epoch
(spec §4.8, §5) — the Batch Control Stage beginning an epoch's collection,
and one batched actuation submission to the external simulation. -/
inductive Ev where
  | collectStart (epoch : Nat) : Ev
  | batchSubmit (epoch : Nat) : Ev
deriving DecidableEq, Repr

/-- Is the event a batched actuation submission? -/
def Ev.isSubmit : Ev → Bool
  | Ev.batchSubmit _ => true
  | Ev.collectStart _ => false

/-- Modelled from the spec: one full epoch — localization through batched
actuation (spec §5) — advances the epoch counter and issues exactly one
batched actuation submission (spec §4.8). -/
def epochStep (s : TM) : TM :=
  { s with epoch := s.epoch + 1, batch_submissions := s.batch_submissions + 1 }

/-- The events of epoch `e`: its collection begins and its batched
actuation completes. -/
def epochTrace (e : Nat) : List Ev :=
  [Ev.collectStart e, Ev.batchSubmit e]

/-- Modelled from the spec: `SynchronousTick()` (header line 161;
spec §4.9 and §5).  Only valid — `some` — in the Running state with
synchronous mode enabled; it signals one epoch advance and returns only
after the Batch Control Stage has completed that epoch (the returned state
and trace carry the completed epoch), with result `true`; when the
orchestrator stopped before the epoch completed (`stoppedDuring`), it
returns `false`. -/
def SynchronousTick (s : TM) (stoppedDuring : Bool) : Option (TM × List Ev × Bool) :=
  if s.state = TMState.runningState ∧ s.sync_mode = true then
    if stoppedDuring then
      some ({ s with state := TMState.stoppedState }, [], false)
    else
      some (epochStep s, epochTrace s.epoch, true)
  else none

/-- Modelled from the spec: `N` consecutive `SynchronousTick()` calls, none
interrupted by a stop; `none` when some call was invalid.  Accumulates the
pipeline event trace. -/
def runSyncTicks : TM → Nat → Option (TM × List Ev)
  | s, 0 => some (s, [])
  | s, n + 1 =>
    match SynchronousTick s false with
    | none => none
    | some (s1, tr, _) =>
      match runSyncTicks s1 n with
      | none => none
      | some (s2, tr2) => some (s2, tr ++ tr2)

/-- The canonical lock-step trace of `n` epochs starting at epoch `e`:
collection of each epoch starts only after the previous epoch's batched
submission. -/
def canonicalTrace (e : Nat) : Nat → List Ev
  | 0 => []
  | n + 1 => Ev.collectStart e :: Ev.batchSubmit e :: canonicalTrace (e + 1) n

/-! ## Lane-change direction encoding -/

/-- A forced lane change goes either left or right. -/
inductive LaneChangeDirection where
  | leftLane : LaneChangeDirection
  | rightLane : LaneChangeDirection
deriving DecidableEq, Repr

/-- The direction encoded by `SetForceLaneChange`'s boolean flag
(header lines 137–139: "Direction flag can be set to true for left and
false for right"). -/
def directionOfFlag (direction : Bool) : LaneChangeDirection :=
  if direction then LaneChangeDirection.leftLane else LaneChangeDirection.rightLane

/-! ## The public API as operations on the orchestrator state -/

/-- Update an association-list flag for an actor. -/
def setFlag (l : List (ActorId × Bool)) (a : ActorId) (v : Bool) :
    List (ActorId × Bool) :=
  (a, v) :: l.filter (fun p => p.1 != a)

/-- Modelled from the spec: the orchestrator's public API operations
(header lines 116–161; spec §6). -/
inductive ApiOp where
  | registerVehicles (actors : List ActorId) : ApiOp
  | unregisterVehicles (actors : List ActorId) : ApiOp
  | setPercentageSpeedDifference (a : ActorId) (pct : Rat) : ApiOp
  | setGlobalPercentageSpeedDifference (pct : Rat) : ApiOp
  | setCollisionDetection (ref other : ActorId) (detect : Bool) : ApiOp
  | setForceLaneChange (a : ActorId) (direction : Bool) : ApiOp
  | setAutoLaneChange (a : ActorId) (enable : Bool) : ApiOp
  | setDistanceToLeadingVehicle (a : ActorId) (distance : Rat) : ApiOp
  | setPercentageIgnoreActors (a : ActorId) (pct : Rat) : ApiOp
  | setPercentageRunningLight (a : ActorId) (pct : Rat) : ApiOp
  | resetAllTrafficLights : ApiOp
  | setSynchronousMode (mode : Bool) : ApiOp
  | synchronousTick : ApiOp

/-- Drop every parameter override of the given actors (spec §4.1:
removal drops the actor's `ParameterRecord` overrides). -/
def Parameters.RemoveActors (p : Parameters) (actors : List ActorId) : Parameters :=
  { p with
    speed_diff := actors.foldl FieldStore.RemoveActor p.speed_diff,
    distance_to_leading := actors.foldl FieldStore.RemoveActor p.distance_to_leading,
    ignore_actors_pct := actors.foldl FieldStore.RemoveActor p.ignore_actors_pct,
    run_light_pct := actors.foldl FieldStore.RemoveActor p.run_light_pct }

/-- Modelled from the spec: the effect of each public API operation on the
orchestrator state (header lines 116–161; spec §6).  Parameter writes touch
only the Parameter Store, registry writes only the Actor Registry;
`ResetAllTrafficLights` acts on the external lights; `SynchronousTick`
completes one epoch when valid. -/
def TM.applyOp (s : TM) (op : ApiOp) : TM :=
  match op with
  | ApiOp.registerVehicles l =>
    { s with registry := RegisterVehiclesReg s.registry l }
  | ApiOp.unregisterVehicles l =>
    { s with
      registry := UnregisterVehiclesReg s.registry l,
      params := s.params.RemoveActors l }
  | ApiOp.setPercentageSpeedDifference a pct =>
    { s with params := { s.params with speed_diff := s.params.speed_diff.SetForActor a pct } }
  | ApiOp.setGlobalPercentageSpeedDifference pct =>
    { s with params := { s.params with speed_diff := s.params.speed_diff.SetGlobal pct } }
  | ApiOp.setCollisionDetection ref other detect =>
    { s with params := s.params.SetCollisionDetection ref other detect }
  | ApiOp.setForceLaneChange a direction =>
    { s with params :=
      { s.params with force_lane_change := setFlag s.params.force_lane_change a direction } }
  | ApiOp.setAutoLaneChange a enable =>
    { s with params :=
      { s.params with auto_lane_change := setFlag s.params.auto_lane_change a enable } }
  | ApiOp.setDistanceToLeadingVehicle a d =>
    { s with params :=
      { s.params with distance_to_leading := s.params.distance_to_leading.SetForActor a d } }
  | ApiOp.setPercentageIgnoreActors a pct =>
    { s with params :=
      { s.params with ignore_actors_pct := s.params.ignore_actors_pct.SetForActor a pct } }
  | ApiOp.setPercentageRunningLight a pct =>
    { s with params :=
      { s.params with run_light_pct := s.params.run_light_pct.SetForActor a pct } }
  | ApiOp.resetAllTrafficLights => s
  | ApiOp.setSynchronousMode mode => { s with sync_mode := mode }
  | ApiOp.synchronousTick =>
    match SynchronousTick s false with
    | some (s1, _, _) => s1
    | none => s

/-! ## Example states -/

/-- A concrete orchestrator in the Running state with synchronous mode on. -/
def tmRun : TM :=
  { mkTrafficManagerLocal [1] [2] [3] [4] 0 with
    state := TMState.runningState,
    sync_mode := true,
    stages_alive := true,
    messengers_alive := true }

/-- A concrete freshly-constructed (stopped) orchestrator. -/
def tmStopped : TM :=
  mkTrafficManagerLocal [1] [2] [3] [4] 0

/-! ## Helper lemmas -/

theorem SynchronousTick_pid (s : TM) (st : Bool) (x : TM × List Ev × Bool)
    (h : SynchronousTick s st = some x) : x.1.pid = s.pid := by
  unfold SynchronousTick at h
  split at h
  · split at h <;> (cases h; rfl)
  · exact Option.noConfusion h

theorem runSyncTicks_eq : ∀ (n : Nat) (s : TM),
    s.state = TMState.runningState → s.sync_mode = true →
    runSyncTicks s n = some
      ({ s with epoch := s.epoch + n, batch_submissions := s.batch_submissions + n },
       canonicalTrace s.epoch n) := by
  intro n
  induction n with
  | zero =>
    intro s _ _
    simp [runSyncTicks, canonicalTrace]
  | succ n ih =>
    intro s hs hm
    have htick : SynchronousTick s false =
        some (epochStep s, epochTrace s.epoch, true) := by
      simp [SynchronousTick, hs, hm]
    have hrec := ih (epochStep s) hs hm
    simp only [epochStep] at hrec
    simp only [runSyncTicks, htick, epochStep, epochTrace, canonicalTrace,
      List.cons_append, List.nil_append]
    rw [hrec]
    simp only [Option.some.injEq, Prod.mk.injEq, TM.mk.injEq, and_true, true_and,
      eq_self_iff_true]
    omega

theorem canonicalTrace_countSubmit : ∀ (n e : Nat),
    (canonicalTrace e n).countP Ev.isSubmit = n := by
  intro n
  induction n with
  | zero => intro e; rfl
  | succ n ih =>
    intro e
    simp [canonicalTrace, List.countP_cons, Ev.isSubmit, ih (e + 1)]

theorem canonicalTrace_length : ∀ (n e : Nat),
    (canonicalTrace e n).length = 2 * n := by
  intro n
  induction n with
  | zero => intro e; rfl
  | succ n ih =>
    intro e
    simp only [canonicalTrace, List.length_cons, ih (e + 1)]
    omega

theorem canonicalTrace_get : ∀ (n e k : Nat), k < n →
    (canonicalTrace e n)[2 * k]? = some (Ev.collectStart (e + k)) ∧
    (canonicalTrace e n)[2 * k + 1]? = some (Ev.batchSubmit (e + k)) := by
  intro n
  induction n with
  | zero => intro e k hk; cases hk
  | succ n ih =>
    intro e k hk
    cases k with
    | zero => simp [canonicalTrace]
    | succ k =>
      have h2 : 2 * (k + 1) = 2 * k + 1 + 1 := by omega
      rw [h2]
      simp only [canonicalTrace, List.getElem?_cons_succ]
      have he : e + 1 + k = e + (k + 1) := by omega
      have h := ih (e + 1) k (Nat.lt_of_succ_lt_succ hk)
      rw [he] at h
      exact h

/-! ## Claim theorems -/

/-- C1: `SynchronousTick()` is valid only in the Running state with
synchronous mode enabled; under that precondition it signals one epoch
advance, blocks until the Batch Control Stage completes that epoch, and
returns `true`, while it returns `false` whenever the orchestrator stopped
before the epoch completed. -/
theorem synchronousTick_valid_spec (s : TM) (stoppedDuring : Bool) :
    ((SynchronousTick s stoppedDuring).isSome = true ↔
      (s.state = TMState.runningState ∧ s.sync_mode = true)) ∧
    (s.state = TMState.runningState → s.sync_mode = true →
      (stoppedDuring = false →
        SynchronousTick s stoppedDuring = some (epochStep s, epochTrace s.epoch, true) ∧
        (epochStep s).batch_submissions = s.batch_submissions + 1 ∧
        Ev.batchSubmit s.epoch ∈ epochTrace s.epoch) ∧
      (stoppedDuring = true →
        ∃ s1, SynchronousTick s stoppedDuring = some (s1, [], false))) := by
  constructor
  · by_cases hcond : s.state = TMState.runningState ∧ s.sync_mode = true
    · cases stoppedDuring <;> simp [SynchronousTick, hcond]
    · simp [SynchronousTick, hcond]
  · intro hs hm
    constructor
    · intro hstop
      subst hstop
      refine ⟨by simp [SynchronousTick, hs, hm], rfl, ?_⟩
      simp [epochTrace]
    · intro hstop
      subst hstop
      exact ⟨{ s with state := TMState.stoppedState },
        by simp [SynchronousTick, hs, hm]⟩

/-- Witness for C1 at a concrete running synchronous orchestrator. -/
theorem synchronousTick_valid_spec_witness :
    SynchronousTick tmRun false = some (epochStep tmRun, epochTrace 0, true) :=
  (((synchronousTick_valid_spec tmRun false).2 rfl rfl).1 rfl).1

/-- C2: under synchronous mode, `N` consecutive successful
`SynchronousTick()` calls produce exactly `N` batched actuation submissions,
and each epoch's collection starts only after the previous epoch's
submission: in the trace, the collection of epoch `e + k` sits at position
`2k` and its submission at position `2k + 1`, so submission `k` strictly
precedes collection `k + 1`. -/
theorem synchronousTick_lockstep (s : TM) (N : Nat)
    (hs : s.state = TMState.runningState) (hm : s.sync_mode = true) :
    ∃ s2 tr, runSyncTicks s N = some (s2, tr) ∧
      s2.batch_submissions = s.batch_submissions + N ∧
      tr.countP Ev.isSubmit = N ∧
      tr.length = 2 * N ∧
      (∀ k, k < N →
        tr[2 * k]? = some (Ev.collectStart (s.epoch + k)) ∧
        tr[2 * k + 1]? = some (Ev.batchSubmit (s.epoch + k))) := by
  refine ⟨_, _, runSyncTicks_eq N s hs hm, rfl,
    canonicalTrace_countSubmit N s.epoch, canonicalTrace_length N s.epoch, ?_⟩
  intro k hk
  exact canonicalTrace_get N s.epoch k hk

/-- Witness for C2: three ticks on a concrete running synchronous
orchestrator yield exactly three submissions in lock-step order. -/
theorem synchronousTick_lockstep_witness :
    ∃ s2 tr, runSyncTicks tmRun 3 = some (s2, tr) ∧
      s2.batch_submissions = tmRun.batch_submissions + 3 ∧
      tr.countP Ev.isSubmit = 3 ∧
      tr.length = 2 * 3 ∧
      (∀ k, k < 3 →
        tr[2 * k]? = some (Ev.collectStart (tmRun.epoch + k)) ∧
        tr[2 * k + 1]? = some (Ev.batchSubmit (tmRun.epoch + k))) :=
  synchronousTick_lockstep tmRun 3 rfl rfl

/-- C3: after `SetCollisionDetection(a, b, false)` the exception holds
symmetrically — neither the ordered pair `(a, b)` nor `(b, a)` ever yields a
must-yield verdict for either actor, whatever the geometric overlap,
ignore-probability draw, or priority. -/
theorem collision_exception_symmetric (p : Parameters) (a b : ActorId)
    (overlapsAB overlapsBA ignoreAB ignoreBA prioAB prioBA : Bool) :
    hazardVerdict (p.SetCollisionDetection a b false) a b overlapsAB ignoreAB prioAB
      = HazardVerdict.noHazard ∧
    hazardVerdict (p.SetCollisionDetection a b false) b a overlapsBA ignoreBA prioBA
      = HazardVerdict.noHazard := by
  constructor <;>
    simp [hazardVerdict, Parameters.SetCollisionDetection, Parameters.collisionExempt,
      List.contains_cons]

/-- C4: a Parameter Store read returns the per-actor value when an override
is present, otherwise the global default, otherwise the built-in default;
with no per-actor override the read equals the global value current at read
time, so a global write (in particular
`SetGlobalPercentageSpeedDifference`) is observed immediately. -/
theorem parameterStore_get_fallback (fs : FieldStore) (a : ActorId) (v w : Rat)
    (s : TM) :
    (fs.perActor.lookup a = some w → fs.Get a = w) ∧
    (fs.perActor.lookup a = none → fs.globalVal = some v → fs.Get a = v) ∧
    (fs.perActor.lookup a = none → fs.globalVal = none → fs.Get a = fs.builtin) ∧
    (fs.perActor.lookup a = none → (fs.SetGlobal v).Get a = v) ∧
    (s.params.speed_diff.perActor.lookup a = none →
      ((s.applyOp (ApiOp.setGlobalPercentageSpeedDifference v)).params.speed_diff.Get a
        = v)) := by
  refine ⟨?_, ?_, ?_, ?_, ?_⟩
  · intro h; simp [FieldStore.Get, h]
  · intro h hg; simp [FieldStore.Get, h, hg]
  · intro h hg; simp [FieldStore.Get, h, hg]
  · intro h; simp [FieldStore.Get, FieldStore.SetGlobal, h]
  · intro h; simp [TM.applyOp, FieldStore.Get, FieldStore.SetGlobal, h]

/-- Witness for C4 at a concrete store with no per-actor override. -/
theorem parameterStore_get_fallback_witness :
    (FieldStore.Get { builtin := 3, globalVal := some 7, perActor := [] } 5 = 7) ∧
    (FieldStore.SetGlobal { builtin := 3, globalVal := some 7, perActor := [] } 9).Get 5
      = 9 := by
  have h := parameterStore_get_fallback
    { builtin := 3, globalVal := some 7, perActor := [] } 5 7 7 tmRun
  have h9 := parameterStore_get_fallback
    { builtin := 3, globalVal := some 7, perActor := [] } 5 9 7 tmRun
  exact ⟨h.2.1 rfl rfl, h9.2.2.2.1 rfl⟩

/-- C5: `RegisterVehicles` is idempotent — registering the same actor list
twice leaves the registry as after one call — and `UnregisterVehicles` on a
non-member is a no-op. -/
theorem register_idempotent_unregister_noop (reg actors : List ActorId)
    (a : ActorId) :
    RegisterVehiclesReg (RegisterVehiclesReg reg actors) actors
      = RegisterVehiclesReg reg actors ∧
    (a ∉ reg → UnregisterVehiclesReg reg [a] = reg) := by
  constructor
  · exact registerReg_eq_of_mem actors (RegisterVehiclesReg reg actors)
      (fun x hx => mem_registerReg actors reg x hx)
  · intro ha
    unfold UnregisterVehiclesReg
    apply List.filter_eq_self.mpr
    intro x hx
    have hne : x ≠ a := fun h => ha (h ▸ hx)
    simp [List.contains_cons, hne]

/-- Witness for C5 at a concrete registry. -/
theorem register_idempotent_unregister_noop_witness :
    RegisterVehiclesReg (RegisterVehiclesReg [1, 2] [1, 3]) [1, 3]
      = RegisterVehiclesReg [1, 2] [1, 3] ∧
    UnregisterVehiclesReg [1, 2] [5] = [1, 2] :=
  ⟨(register_idempotent_unregister_noop [1, 2] [1, 3] 5).1,
   (register_idempotent_unregister_noop [1, 2] [1, 3] 5).2 (by decide)⟩

/-- C6: with no hazard and no forced stop the longitudinal desired speed is
speed limit × (1 − percentage/100); it is 0 under a must-yield verdict or a
red light that may not be run; and after `SetPercentageSpeedDifference
(actor, 50)` an actor with speed limit 10 has desired speed 5. -/
theorem desiredSpeed_spec (limit pct : Rat) (y r : Bool) (fs : FieldStore)
    (a : ActorId) :
    desiredSpeed limit pct false false = limit * (1 - pct / 100) ∧
    desiredSpeed limit pct true r = 0 ∧
    desiredSpeed limit pct y true = 0 ∧
    desiredSpeed 10 ((fs.SetForActor a 50).Get a) false false = 5 := by
  refine ⟨rfl, by simp [desiredSpeed], by simp [desiredSpeed], ?_⟩
  have hget : (fs.SetForActor a 50).Get a = 50 := by
    simp [FieldStore.SetForActor, FieldStore.Get, List.lookup]
  rw [hget]
  norm_num [desiredSpeed]

/-- C7: `CheckAllFrozen` exceeding its bounded retry count reports a soft
failure to the caller of `ResetAllTrafficLights` as a boolean status (the
protocol is a total function of the polls — it cannot block forever); when
all lights are frozen at the first poll it succeeds with no retries
consumed. -/
theorem checkAllFrozen_retry_protocol (poll : Nat → List Bool) (r : Nat) :
    ((∀ k, k ≤ r → (poll k).all (fun b => b) = false) →
      CheckAllFrozen poll r = (false, r) ∧ ResetAllTrafficLights poll r = false) ∧
    ((poll 0).all (fun b => b) = true →
      CheckAllFrozen poll r = (true, 0) ∧ ResetAllTrafficLights poll r = true) := by
  constructor
  · intro h
    have hgo : checkAllFrozenGo poll 0 r = (false, r) := by
      apply checkAllFrozenGo_all_fail poll r 0
      intro k hk
      simpa using h k hk
    exact ⟨hgo, by simp [ResetAllTrafficLights, CheckAllFrozen, hgo]⟩
  · intro h
    have hgo : checkAllFrozenGo poll 0 r = (true, 0) :=
      checkAllFrozenGo_first_poll poll 0 r h
    exact ⟨hgo, by simp [ResetAllTrafficLights, CheckAllFrozen, hgo]⟩

/-- Witness for C7: a group that never freezes within the bound yields a
soft failure with all retries consumed; a group frozen at the first poll
succeeds with none consumed. -/
theorem checkAllFrozen_retry_protocol_witness :
    (CheckAllFrozen (fun _ => [false, true]) 2 = (false, 2) ∧
      ResetAllTrafficLights (fun _ => [false, true]) 2 = false) ∧
    (CheckAllFrozen (fun _ => [true, true]) 3 = (true, 0) ∧
      ResetAllTrafficLights (fun _ => [true, true]) 3 = true) :=
  ⟨(checkAllFrozen_retry_protocol (fun _ => [false, true]) 2).1 (by decide),
   (checkAllFrozen_retry_protocol (fun _ => [true, true]) 3).2 (by decide)⟩

/-- C8: the lifecycle follows Stopped → Starting → Running → Stopping →
Stopped; `Start()` while already Running is a no-op leaving the whole
orchestrator state (stages and messengers included) unchanged. -/
theorem lifecycle_state_machine (s : TM) :
    (s.state = TMState.runningState → s.start = s) ∧
    (s.state = TMState.stoppedState →
      List.Chain' (fun x y => allowedTransition x y = true) (s.state :: startVisited s) ∧
      (s.start).state = TMState.runningState) ∧
    (s.state = TMState.runningState →
      List.Chain' (fun x y => allowedTransition x y = true) (s.state :: stopVisited) ∧
      (s.stop).state = TMState.stoppedState) := by
  refine ⟨?_, ?_, ?_⟩
  · intro h
    simp [TM.start, h]
  · intro h
    constructor
    · rw [h]
      have hv : startVisited s = [TMState.startingState, TMState.runningState] := by
        simp [startVisited, h]
      rw [hv]
      refine List.chain'_cons.mpr ⟨rfl, ?_⟩
      exact List.chain'_pair.mpr rfl
    · simp [TM.start, h]
  · intro h
    constructor
    · rw [h]
      refine List.chain'_cons.mpr ⟨rfl, ?_⟩
      exact List.chain'_pair.mpr rfl
    · rfl

/-- Witness for C8: on a concrete running orchestrator `Start()` changes
nothing; a concrete stopped orchestrator starts into Running through the
legal chain. -/
theorem lifecycle_state_machine_witness :
    tmRun.start = tmRun ∧ (tmStopped.start).state = TMState.runningState :=
  ⟨(lifecycle_state_machine tmRun).1 rfl,
   ((lifecycle_state_machine tmStopped).2.1 rfl).2⟩

/-- C9: the four PID gain vectors are fixed at construction and never
mutated afterwards — every public API operation preserves them, every epoch
of stage execution after `Start()` preserves them, and the constructor
stores exactly the vectors it was passed. -/
theorem pid_gains_immutable (s : TM) (op : ApiOp) (n : Nat)
    (lon lonHw lat latHw : List Rat) (perc : Rat) :
    (s.applyOp op).pid = s.pid ∧
    (epochStep^[n] s.start).pid = s.pid ∧
    (mkTrafficManagerLocal lon lonHw lat latHw perc).pid =
      { longitudinal_PID_parameters := lon,
        longitudinal_highway_PID_parameters := lonHw,
        lateral_PID_parameters := lat,
        lateral_highway_PID_parameters := latHw } := by
  refine ⟨?_, ?_, rfl⟩
  · cases op with
    | synchronousTick =>
      show (match SynchronousTick s false with
        | some (s1, _, _) => s1
        | none => s).pid = s.pid
      cases hst : SynchronousTick s false with
      | none => rfl
      | some x =>
        obtain ⟨s1, tr, b⟩ := x
        exact SynchronousTick_pid s false (s1, tr, b) hst
    | _ => rfl
  · have hstart : (s.start).pid = s.pid := by
      unfold TM.start
      split <;> rfl
    have hiter : ∀ (m : Nat) (t : TM), (epochStep^[m] t).pid = t.pid := by
      intro m
      induction m with
      | zero => intro t; rfl
      | succ m ihm =>
        intro t
        rw [Function.iterate_succ_apply]
        exact ihm (epochStep t)
    exact (hiter n s.start).trans hstart

/-- C10: the boolean direction flag of `SetForceLaneChange` encodes true =
left and false = right, and every value of the flag is one of the two — the
interface admits no other direction. -/
theorem forceLaneChange_direction (b : Bool) :
    directionOfFlag true = LaneChangeDirection.leftLane ∧
    directionOfFlag false = LaneChangeDirection.rightLane ∧
    (directionOfFlag b = LaneChangeDirection.leftLane ∨
      directionOfFlag b = LaneChangeDirection.rightLane) := by
  refine ⟨rfl, rfl, ?_⟩
  cases b
  · right; rfl
  · left; rfl

end CarlaTM
